import Mathlib

/-!
Verification of the storage-server HTTP request handling
(`src/httpserver/http_connection.hpp`), the pubkey parsing
(`src/common/include/oxen_common.h`) and the push-subscription record
(`MonitorData`), as a shallow embedding in Lean.

Bytes are modelled as `Nat` values (the C++ code works on `unsigned char`
buffers; every formatting step reduces modulo 256 exactly where the C++
type system does).  Header strings are treated as their character/byte
sequences.  The SHA-512 primitive and the proof-of-work check are external
to the repository (OpenSSL `SHA512`, `pow.hpp`) and are taken as function
parameters; nothing proved below depends on their values, only on how the
handler builds their inputs and consumes their outputs.
-/

/-- Byte sequence of a header/string value: one byte per character
(header values are ASCII on this interface). -/
def strBytes (s : String) : List Nat :=
  s.data.map (fun c => c.toNat)

/-- Lower-case hexadecimal digit for a value below 16, as produced by
the C format `%02x`. -/
def hexDigit (n : Nat) : Char :=
  if n < 10 then Char.ofNat (48 + n) else Char.ofNat (87 + n)

/-- Two-character lower-case hex rendering of one byte
(`sprintf "%02x"` on an `unsigned char`). -/
def hexByte (b : Nat) : List Char :=
  [hexDigit (b % 256 / 16), hexDigit (b % 256 % 16)]

/-- Hex string of a byte list, as built by the digest-printing loop in
`process_store`. -/
def toHexStr (l : List Nat) : String :=
  String.mk (l.flatMap hexByte)

/-- HTTP verbs distinguished by `process_request`: the two handled verbs
and one constructor covering every other verb (the `default:` case). -/
inductive Verb where
  | get
  | post
  | other
deriving DecidableEq

/-- Response statuses set by this connection handler. -/
inductive HStatus where
  | ok
  | bad_request
  | forbidden
  | not_found
  | conflict
  | internal_server_error
deriving DecidableEq

/-- The parts of `response_` that the handler sets. -/
structure Response where
  status : HStatus
  content_type : String
  body : String
deriving DecidableEq

/-- The parts of `request_` that the handler reads. -/
structure Request where
  method : Verb
  target : String
  headers : List (String × String)
  body : List Nat
deriving DecidableEq

/-- Header lookup (`request_.find(key)`). -/
def findHeader (req : Request) (key : String) : Option String :=
  (req.headers.find? (fun kv => kv.1 == key)).map (fun kv => kv.2)

/-- First key of `key_list` missing from the request headers: the key on
which `parse_header` stops and reports the error, `none` when all are
present. -/
def firstMissing (req : Request) : List String → Option String
  | [] => none
  | k :: ks =>
    match findHeader req k with
    | none => some k
    | some _ => firstMissing req ks

/-- Response produced by `parse_header` for a missing header key. -/
def missingFieldResponse (key : String) : Response :=
  ⟨HStatus.bad_request, "text/plain", "Missing field in header : " ++ key⟩

/-- Stored message record: the fields the legacy `Storage` interface
carries (`store(hash, pubKey, bytes, ttl)`; retrieval exposes
`hash`, `timestamp`, `bytes`). -/
structure Item where
  hash : String
  pub_key : String
  timestamp : Int
  bytes : List Nat
  ttl : Int
deriving DecidableEq

/-- Storage state: the stored messages in insertion order. -/
abbrev StorageState : Type := List Item

/-- Modelled from the spec: `Storage::store` (the `Storage.hpp`
implementation is not under `src/`; the spec says a stored message is
unique by `hash` and that a second store with the same hash is reported
as a conflict to this caller).  Inserts the message keyed by `hash` and
returns `true`; if a message with the same hash is already present it
stores nothing and returns `false`.  The legacy call passes no client
timestamp, so the record's timestamp field is modelled as 0; no claim
below depends on it. -/
def storageStore (st : StorageState) (hash pubKey : String) (bytes : List Nat)
    (ttl : Int) : Bool × StorageState :=
  if st.any (fun it => it.hash == hash) then (false, st)
  else (true, st ++ [⟨hash, pubKey, 0, bytes, ttl⟩])

/-- Modelled from the spec: `Storage::retrieve` (implementation not under
`src/`): the stored messages of the account in order; when `last_hash` is
supplied and present among them it acts as an exclusive lower bound.  The
legacy call site uses the default unlimited result count. -/
def storageRetrieve (st : StorageState) (pubkey last_hash : String) : List Item :=
  let mine := st.filter (fun it => it.pub_key == pubkey)
  if last_hash == "" then mine
  else if mine.any (fun it => it.hash == last_hash) then
    (mine.dropWhile (fun it => !(it.hash == last_hash))).tail
  else mine

/-- Header keys required by `process_store`, in the order `parse_header`
checks them. -/
def storeKeys : List String :=
  ["X-Loki-pow-nonce", "X-Loki-ttl", "X-Loki-timestamp", "X-Loki-recipient"]

/-- True for an ASCII decimal digit. -/
def isDigitChar (c : Char) : Bool :=
  48 ≤ c.toNat && c.toNat ≤ 57

/-- True for the whitespace characters `std::stoi` skips before the
number (space, and the C0 controls tab through carriage return, per the
default locale). -/
def isSpaceChar (c : Char) : Bool :=
  c.toNat == 32 || (9 ≤ c.toNat && c.toNat ≤ 13)

/-- Signed value of the longest digit prefix of `l`: `none` when there is
no digit at all (`std::invalid_argument`) or when the signed value does
not fit the platform's 32-bit `int` (`std::out_of_range`). -/
def stoiParseDigits (neg : Bool) (l : List Char) : Option Int :=
  let digits := l.takeWhile isDigitChar
  if digits.isEmpty then none
  else
    let mag : Int :=
      ((digits.foldl (fun n c => n * 10 + (c.toNat - 48)) 0 : Nat) : Int)
    let v := if neg then -mag else mag
    if v < -2147483648 ∨ 2147483647 < v then none else some v

/-- Model of `std::stoi` as applied to the ttl header: skip leading
whitespace, read an optional sign, then the longest run of decimal
digits.  The result is `some` exactly when `stoi` returns a value (at
least one digit, and the value within 32-bit `int` range) and `none`
exactly where `stoi` throws. -/
def stoiModel (s : String) : Option Int :=
  match s.data.dropWhile isSpaceChar with
  | '-' :: rest => stoiParseDigits true rest
  | '+' :: rest => stoiParseDigits false rest
  | l => stoiParseDigits false l

/-- Byte buffer actually hashed by `process_store`: the C++ code first
constructs `messageContents` with *size* equal to the combined length of
the four fields (so that many zero bytes), then appends timestamp, nonce,
recipient and payload to its end. -/
def storeDigestInput (ts nonce recip : String) (body : List Nat) : List Nat :=
  let mc0 := List.replicate
    ((strBytes ts).length + (strBytes nonce).length +
      (strBytes recip).length + body.length) 0
  let mc1 := mc0 ++ strBytes ts
  let mc2 := mc1 ++ strBytes nonce
  let mc3 := mc2 ++ strBytes recip
  mc3 ++ body

/-- Hash string computed by `process_store`: the 64 digest bytes printed
as lower-case hex (`SHA512` has a fixed 64-byte output; `sha` stands for
it as a black box). -/
def storeHash (sha : List Nat → List Nat) (ts nonce recip : String)
    (body : List Nat) : String :=
  toHexStr (sha (storeDigestInput ts nonce recip body))

/-- Value of a header already checked to be present (`header_[key]`). -/
def hdr (req : Request) (key : String) : String :=
  (findHeader req key).getD ""

/-- The response `process_store` sends when `checkPoW` fails. -/
def powFailResponse : Response :=
  ⟨HStatus.forbidden, "text/plain", "Provided PoW nonce is not valid."⟩

/-- The response `process_store` sends when the store reports the hash
already present. -/
def conflictResponse : Response :=
  ⟨HStatus.conflict, "text/plain", "hash conflict - resource already present."⟩

/-- The success response of `process_store`. -/
def okStoreResponse : Response :=
  ⟨HStatus.ok, "application/json", "\x7b \"status\": \"ok\" \x7d"⟩

/-- The store handler (`http_connection::process_store`), parameterised by
the external SHA-512 primitive and the external `checkPoW` from
`pow.hpp`.  A `none` result models the `std::stoi` exception on the ttl
header escaping the handler: that call sits outside the try block (which
wraps only `storage_.store`), so no response is produced and the store is
never reached. -/
def process_store (sha : List Nat → List Nat)
    (checkPoW : String → String → String → String → List Nat → Bool)
    (req : Request) (st : StorageState) :
    Option (Response × StorageState) :=
  match firstMissing req storeKeys with
  | some k => some (missingFieldResponse k, st)
  | none =>
    let nonce := hdr req "X-Loki-pow-nonce"
    let ttlStr := hdr req "X-Loki-ttl"
    let ts := hdr req "X-Loki-timestamp"
    let recip := hdr req "X-Loki-recipient"
    let bytes := req.body
    if !(checkPoW nonce ts ttlStr recip bytes) then
      some (powFailResponse, st)
    else
      match stoiModel ttlStr with
      | none => none
      | some ttl =>
        let hash := storeHash sha ts nonce recip bytes
        match storageStore st hash recip bytes ttl with
        | (false, st2) => some (conflictResponse, st2)
        | (true, st2) => some (okStoreResponse, st2)

/-- Raw append of message bytes into the JSON body string
(`body.append(std::begin(item.bytes), std::end(item.bytes))`). -/
def rawString (l : List Nat) : String :=
  String.mk (l.map (fun b => Char.ofNat (b % 256)))

/-- The JSON fragment `process_retrieve` emits for one item, including
its trailing comma. -/
def itemJson (it : Item) : String :=
  "\x7b" ++ "\"hash\":\"" ++ it.hash ++ "\"," ++
    "\"timestamp\":\"" ++ toString it.timestamp ++ "\"," ++
    "\"data\":\"" ++ rawString it.bytes ++ "\"" ++ "\x7d,"

/-- The response body built by `process_retrieve`: opening text, one
fragment per item, then `body.pop_back()` (which drops the final
character unconditionally) and the closing text. -/
def retrieveBody (items : List Item) : String :=
  (("\x7b\"messages\": [" ++ String.join (items.map itemJson)).dropRight 1)
    ++ "]\x7d"

/-- The retrieve handler (`http_connection::process_retrieve`); it never
mutates the storage state. -/
def process_retrieve (req : Request) (st : StorageState) : Response :=
  match firstMissing req ["pubkey"] with
  | some k => missingFieldResponse k
  | none =>
    let pubkey := (findHeader req "pubkey").getD ""
    let last_hash := (findHeader req "last_hash").getD ""
    let items := storageRetrieve st pubkey last_hash
    ⟨HStatus.ok, "application/json", retrieveBody items⟩

/-- The dispatcher (`http_connection::process_request`): GET is routed to
`process_retrieve` when the target is exactly `/retrieve`, POST to
`process_store` when the target is exactly `/store`; a wrong target gives
`not_found`, and every other verb falls into the `default:` branch.  The
`none` outcome of the store path (the escaping `std::stoi` exception)
propagates through the dispatcher unchanged. -/
def process_request (sha : List Nat → List Nat)
    (checkPoW : String → String → String → String → List Nat → Bool)
    (req : Request) (st : StorageState) :
    Option (Response × StorageState) :=
  match req.method with
  | Verb.get =>
    if req.target != "/retrieve" then some (⟨HStatus.not_found, "", ""⟩, st)
    else some (process_retrieve req st, st)
  | Verb.post =>
    if req.target != "/store" then some (⟨HStatus.not_found, "", ""⟩, st)
    else process_store sha checkPoW req st
  | Verb.other => some (⟨HStatus.bad_request, "", ""⟩, st)

/-- Fixed pubkey length constant `MAINNET_USER_PUBKEY_SIZE` (hex
characters). -/
def MAINNET_USER_PUBKEY_SIZE : Nat := 66

/-- Fixed pubkey length constant `TESTNET_USER_PUBKEY_SIZE` (hex
characters). -/
def TESTNET_USER_PUBKEY_SIZE : Nat := 64

/-- Network-dependent pubkey length (`get_user_pubkey_size`); the global
`is_mainnet` flag is passed explicitly. -/
def get_user_pubkey_size (is_mainnet : Bool) : Nat :=
  if is_mainnet then MAINNET_USER_PUBKEY_SIZE else TESTNET_USER_PUBKEY_SIZE

/-- True for the characters the hex lookup accepts: `0`-`9`, `a`-`f`,
`A`-`F`. -/
def isHexChar (c : Char) : Bool :=
  (48 ≤ c.toNat && c.toNat ≤ 57) || (97 ≤ c.toNat && c.toNat ≤ 102) ||
    (65 ≤ c.toNat && c.toNat ≤ 70)

/-- Modelled from the spec: `oxenmq::is_hex` (external library, consumed
as a black box): true exactly when every character is a hexadecimal digit
and the length is a multiple of two. -/
def is_hex (s : String) : Bool :=
  s.length % 2 == 0 && s.data.all isHexChar

/-- The validated account pubkey wrapper (`user_pubkey_t`); its single
field is the hex string, empty in a default-constructed value. -/
structure user_pubkey_t where
  pubkey_ : String
deriving DecidableEq

/-- Accessor `user_pubkey_t::str`. -/
def user_pubkey_t.str (u : user_pubkey_t) : String :=
  u.pubkey_

/-- Constructor `user_pubkey_t::create`: rejects (returning a default
value and success `false`) when the size differs from the network's fixed
pubkey size or the string is not hex; otherwise wraps the string with
success `true`.  Returned as (value, success). -/
def user_pubkey_t.create (is_mainnet : Bool) (pk : String) :
    user_pubkey_t × Bool :=
  if pk.length != get_user_pubkey_size is_mainnet || !(is_hex pk) then
    (⟨""⟩, false)
  else
    (⟨pk⟩, true)

/-- Subscription lifetime constant `MonitorData::MONITOR_EXPIRY_TIME`
(65 minutes), in seconds; the steady clock is modelled as a `Nat` second
count passed explicitly wherever the C++ reads
`std::chrono::steady_clock::now()`. -/
def MONITOR_EXPIRY_TIME : Nat := 65 * 60

/-- Push-subscription registration record (`MonitorData`); the OMQ
connection id is abstracted to a `Nat` handle. -/
structure MonitorData where
  expiry : Nat
  namespaces : List Int
  push_conn : Nat
  want_data : Bool
deriving DecidableEq

/-- The `MonitorData` constructor: takes the current steady-clock time
and the ttl argument (whose C++ default is `MONITOR_EXPIRY_TIME`) and
sets `expiry` to their sum, storing the other three fields as given. -/
def MonitorData.construct (now : Nat) (ns : List Int) (conn : Nat)
    (data : Bool) (ttl : Nat) : MonitorData :=
  ⟨now + ttl, ns, conn, data⟩

/-- Method `MonitorData::reset_expiry`: assigns `expiry` from the current
steady-clock time and the ttl argument (C++ default
`MONITOR_EXPIRY_TIME`). -/
def MonitorData.reset_expiry (m : MonitorData) (now : Nat) (ttl : Nat) :
    MonitorData :=
  ⟨now + ttl, m.namespaces, m.push_conn, m.want_data⟩

/-! Concrete fixtures used by counterexamples and witnesses.  `sha0`
stands in for the SHA-512 black box with the correct output length; none
of the refuted or confirmed statements depends on digest values. -/

/-- A stand-in digest function with SHA-512's output length. -/
def sha0 : List Nat → List Nat := fun _ => List.replicate 64 0

/-- A proof-of-work oracle accepting everything. -/
def powTrue : String → String → String → String → List Nat → Bool :=
  fun _ _ _ _ _ => true

/-- A proof-of-work oracle rejecting everything. -/
def powFalse : String → String → String → String → List Nat → Bool :=
  fun _ _ _ _ _ => false

/-- A complete set of store headers. -/
def stdStoreHeaders : List (String × String) :=
  [("X-Loki-pow-nonce", "1"), ("X-Loki-ttl", "60"),
    ("X-Loki-timestamp", "2"), ("X-Loki-recipient", "ab")]

/-- A well-formed store request with a two-byte payload. -/
def storeReq1 : Request :=
  ⟨Verb.post, "/store", stdStoreHeaders, [104, 105]⟩

/-- The record that storing `storeReq1` into the empty state produces. -/
def storedItem1 : Item :=
  ⟨storeHash sha0 "2" "1" "ab" [104, 105], "ab", 0, [104, 105], 60⟩

/-- A well-formed store request whose payload is 76801 bytes. -/
def bigStoreReq : Request :=
  ⟨Verb.post, "/store", stdStoreHeaders, List.replicate 76801 0⟩

/-- A retrieve request with the pubkey header present. -/
def retrieveReq : Request :=
  ⟨Verb.get, "/retrieve", [("pubkey", "pk")], []⟩

/-! Helper lemmas about the handlers. -/

/-- Reduction of `process_store` on the success path: headers present,
PoW accepted, ttl header accepted by `stoi`, hash not yet stored. -/
theorem process_store_success (sha : List Nat → List Nat)
    (checkPoW : String → String → String → String → List Nat → Bool)
    (req : Request) (st : StorageState)
    (hh : firstMissing req storeKeys = none)
    (hp : checkPoW (hdr req "X-Loki-pow-nonce") (hdr req "X-Loki-timestamp")
      (hdr req "X-Loki-ttl") (hdr req "X-Loki-recipient") req.body = true)
    (ht : (stoiModel (hdr req "X-Loki-ttl")).isSome = true)
    (hf : st.any (fun it => it.hash == storeHash sha (hdr req "X-Loki-timestamp")
      (hdr req "X-Loki-pow-nonce") (hdr req "X-Loki-recipient") req.body) = false) :
    process_store sha checkPoW req st =
      some (okStoreResponse,
        st ++ [⟨storeHash sha (hdr req "X-Loki-timestamp")
            (hdr req "X-Loki-pow-nonce") (hdr req "X-Loki-recipient") req.body,
          hdr req "X-Loki-recipient", 0, req.body,
          (stoiModel (hdr req "X-Loki-ttl")).getD 0⟩]) := by
  obtain ⟨t, ht2⟩ := Option.isSome_iff_exists.mp ht
  unfold process_store
  rw [hh]
  simp [hp, ht2, storageStore, hf]

/-- Reduction of `process_store` on the duplicate path: headers present,
PoW accepted, ttl header accepted by `stoi`, hash already stored; the
state is returned unchanged. -/
theorem process_store_conflict (sha : List Nat → List Nat)
    (checkPoW : String → String → String → String → List Nat → Bool)
    (req : Request) (st : StorageState)
    (hh : firstMissing req storeKeys = none)
    (hp : checkPoW (hdr req "X-Loki-pow-nonce") (hdr req "X-Loki-timestamp")
      (hdr req "X-Loki-ttl") (hdr req "X-Loki-recipient") req.body = true)
    (ht : (stoiModel (hdr req "X-Loki-ttl")).isSome = true)
    (hd : st.any (fun it => it.hash == storeHash sha (hdr req "X-Loki-timestamp")
      (hdr req "X-Loki-pow-nonce") (hdr req "X-Loki-recipient") req.body) = true) :
    process_store sha checkPoW req st = some (conflictResponse, st) := by
  obtain ⟨t, ht2⟩ := Option.isSome_iff_exists.mp ht
  unfold process_store
  rw [hh]
  simp [hp, ht2, storageStore, hd]

/-- Reduction of `process_store` on the `std::stoi` throw path: headers
present and PoW accepted, but the ttl header is rejected by `stoi` (no
digits, or out of `int` range); the exception escapes the handler, so no
response is produced and the store is never consulted. -/
theorem process_store_stoi_throw (sha : List Nat → List Nat)
    (checkPoW : String → String → String → String → List Nat → Bool)
    (req : Request) (st : StorageState)
    (hh : firstMissing req storeKeys = none)
    (hp : checkPoW (hdr req "X-Loki-pow-nonce") (hdr req "X-Loki-timestamp")
      (hdr req "X-Loki-ttl") (hdr req "X-Loki-recipient") req.body = true)
    (ht : stoiModel (hdr req "X-Loki-ttl") = none) :
    process_store sha checkPoW req st = none := by
  unfold process_store
  rw [hh]
  simp [hp, ht]

/-- Hex printing doubles the length. -/
theorem toHexStr_length (l : List Nat) : (toHexStr l).length = 2 * l.length := by
  unfold toHexStr
  show (l.flatMap hexByte).length = 2 * l.length
  induction l with
  | nil => rfl
  | cons b bs ih =>
    simp [List.flatMap_cons, hexByte, ih]
    omega

/-! Claim theorems. -/

/-- C2 counterexample: the digest input actually hashed by the store
handler is not the plain concatenation
`timestamp_str || nonce || recipient_hex || message_bytes` — on a request
with timestamp "2", nonce "1", recipient "ab" and payload "hi" the hashed
buffer carries six extra zero bytes in front. -/
theorem pow_digest_input_cex :
    storeDigestInput "2" "1" "ab" [104, 105] ≠
      strBytes "2" ++ strBytes "1" ++ strBytes "ab" ++ [104, 105] := by
  decide

/-- C2 (amended): the SHA-512 input built by `process_store` is the
concatenation `timestamp_str || nonce || recipient_hex || message_bytes`
*prefixed by one zero byte per byte of that concatenation* (the vector is
constructed with that size and then appended to), so the hashed buffer is
twice as long as the four fields together. -/
theorem pow_digest_input_zero_prefixed (ts nonce recip : String)
    (body : List Nat) :
    storeDigestInput ts nonce recip body =
      List.replicate ((strBytes ts).length + (strBytes nonce).length +
          (strBytes recip).length + body.length) 0 ++
        (strBytes ts ++ (strBytes nonce ++ (strBytes recip ++ body))) ∧
    (storeDigestInput ts nonce recip body).length =
      2 * (strBytes ts ++ strBytes nonce ++ strBytes recip ++ body).length := by
  constructor
  · unfold storeDigestInput
    simp [List.append_assoc]
  · unfold storeDigestInput
    simp
    omega

set_option maxRecDepth 4096 in
/-- C1 counterexample: on a complete store request that is admitted
(PoW accepted, hash fresh), the hash under which the message is stored
has 128 characters (lower-case hex of a 64-byte SHA-512 digest), not 43
bytes of base64 of a 32-byte blake2b digest. -/
theorem stored_hash_length_cex :
    ((process_store sha0 powTrue storeReq1 []).map
      (fun r => r.2.map (fun it => it.hash.length))) = some [128] ∧
    (128 : Nat) ≠ 43 := by
  constructor
  · decide
  · decide

/-- C1 (amended): for every admitted store request, the hash under which
the message is stored is the 128-character lower-case hex encoding of the
64-byte SHA-512 digest of the zero-prefixed buffer
`storeDigestInput timestamp nonce recipient payload`, and this hash is
the key on which the store deduplicates. -/
theorem stored_hash_sha512_hex (sha : List Nat → List Nat)
    (checkPoW : String → String → String → String → List Nat → Bool)
    (req : Request) (st : StorageState)
    (hsha : ∀ m, (sha m).length = 64)
    (hh : firstMissing req storeKeys = none)
    (hp : checkPoW (hdr req "X-Loki-pow-nonce") (hdr req "X-Loki-timestamp")
      (hdr req "X-Loki-ttl") (hdr req "X-Loki-recipient") req.body = true)
    (ht : (stoiModel (hdr req "X-Loki-ttl")).isSome = true)
    (hf : st.any (fun it => it.hash == storeHash sha (hdr req "X-Loki-timestamp")
      (hdr req "X-Loki-pow-nonce") (hdr req "X-Loki-recipient") req.body) = false) :
    process_store sha checkPoW req st =
      some (okStoreResponse,
        st ++ [⟨storeHash sha (hdr req "X-Loki-timestamp")
            (hdr req "X-Loki-pow-nonce") (hdr req "X-Loki-recipient") req.body,
          hdr req "X-Loki-recipient", 0, req.body,
          (stoiModel (hdr req "X-Loki-ttl")).getD 0⟩]) ∧
    (storeHash sha (hdr req "X-Loki-timestamp") (hdr req "X-Loki-pow-nonce")
        (hdr req "X-Loki-recipient") req.body).length = 128 ∧
    storeHash sha (hdr req "X-Loki-timestamp") (hdr req "X-Loki-pow-nonce")
        (hdr req "X-Loki-recipient") req.body =
      toHexStr (sha (storeDigestInput (hdr req "X-Loki-timestamp")
        (hdr req "X-Loki-pow-nonce") (hdr req "X-Loki-recipient") req.body)) := by
  refine ⟨process_store_success sha checkPoW req st hh hp ht hf, ?_, rfl⟩
  unfold storeHash
  rw [toHexStr_length, hsha]

/-- C1 witness: the amended statement instantiated on a concrete admitted
request. -/
theorem stored_hash_sha512_hex_witness :
    (process_store sha0 powTrue storeReq1 []).map (fun r => r.1) =
      some okStoreResponse ∧
    (storeHash sha0 (hdr storeReq1 "X-Loki-timestamp")
      (hdr storeReq1 "X-Loki-pow-nonce") (hdr storeReq1 "X-Loki-recipient")
      storeReq1.body).length = 128 := by
  have h := stored_hash_sha512_hex sha0 powTrue storeReq1 []
    (fun m => rfl) rfl rfl (by decide) rfl
  refine ⟨?_, h.2.1⟩
  rw [h.1]
  rfl

/-- C4: whenever all four store headers are present and the
proof-of-work check fails, the handler responds 403 with body
"Provided PoW nonce is not valid." and the storage state is returned
unchanged (the store is never consulted). -/
theorem pow_failure_403 (sha : List Nat → List Nat)
    (checkPoW : String → String → String → String → List Nat → Bool)
    (req : Request) (st : StorageState)
    (hh : firstMissing req storeKeys = none)
    (hp : checkPoW (hdr req "X-Loki-pow-nonce") (hdr req "X-Loki-timestamp")
      (hdr req "X-Loki-ttl") (hdr req "X-Loki-recipient") req.body = false) :
    process_store sha checkPoW req st = some (powFailResponse, st) := by
  unfold process_store
  rw [hh]
  simp [hp]

/-- C4 witness: the statement instantiated on a concrete complete request
with a rejecting proof-of-work oracle and a nonempty prior state. -/
theorem pow_failure_403_witness :
    firstMissing storeReq1 storeKeys = none ∧
    process_store sha0 powFalse storeReq1 [⟨"h0", "pk", 0, [], 1⟩] =
      some (powFailResponse, [⟨"h0", "pk", 0, [], 1⟩]) :=
  ⟨rfl, pow_failure_403 sha0 powFalse storeReq1 [⟨"h0", "pk", 0, [], 1⟩] rfl rfl⟩

/-- C5: if a first complete store request with accepted PoW and a ttl
header accepted by `stoi` succeeds (it produced a response `r1` with
status ok and the state `st1`), and a second complete request with
accepted PoW and an acceptable ttl header computes the same message
hash, then the second request gets the 409 conflict response and the
storage state is unchanged; moreover exactly one stored message carries
that hash (uniqueness by hash). -/
theorem duplicate_store_conflict (sha : List Nat → List Nat)
    (checkPoW : String → String → String → String → List Nat → Bool)
    (req1 req2 : Request) (st0 : StorageState) (r1 : Response)
    (st1 : StorageState)
    (h1 : firstMissing req1 storeKeys = none)
    (hp1 : checkPoW (hdr req1 "X-Loki-pow-nonce") (hdr req1 "X-Loki-timestamp")
      (hdr req1 "X-Loki-ttl") (hdr req1 "X-Loki-recipient") req1.body = true)
    (ht1 : (stoiModel (hdr req1 "X-Loki-ttl")).isSome = true)
    (h2 : firstMissing req2 storeKeys = none)
    (hp2 : checkPoW (hdr req2 "X-Loki-pow-nonce") (hdr req2 "X-Loki-timestamp")
      (hdr req2 "X-Loki-ttl") (hdr req2 "X-Loki-recipient") req2.body = true)
    (ht2 : (stoiModel (hdr req2 "X-Loki-ttl")).isSome = true)
    (hsame : storeHash sha (hdr req2 "X-Loki-timestamp")
        (hdr req2 "X-Loki-pow-nonce") (hdr req2 "X-Loki-recipient") req2.body =
      storeHash sha (hdr req1 "X-Loki-timestamp") (hdr req1 "X-Loki-pow-nonce")
        (hdr req1 "X-Loki-recipient") req1.body)
    (hrun : process_store sha checkPoW req1 st0 = some (r1, st1))
    (hok : r1.status = HStatus.ok) :
    process_store sha checkPoW req2 st1 = some (conflictResponse, st1) ∧
    (st1.countP (fun it => it.hash == storeHash sha (hdr req2 "X-Loki-timestamp")
      (hdr req2 "X-Loki-pow-nonce") (hdr req2 "X-Loki-recipient")
      req2.body)) = 1 := by
  by_cases hdup : st0.any (fun it => it.hash ==
      storeHash sha (hdr req1 "X-Loki-timestamp") (hdr req1 "X-Loki-pow-nonce")
        (hdr req1 "X-Loki-recipient") req1.body) = true
  · rw [process_store_conflict sha checkPoW req1 st0 h1 hp1 ht1 hdup] at hrun
    have hr1 : conflictResponse = r1 :=
      congrArg Prod.fst (Option.some.inj hrun)
    rw [← hr1] at hok
    simp [conflictResponse] at hok
  · have hfresh : st0.any (fun it => it.hash ==
        storeHash sha (hdr req1 "X-Loki-timestamp") (hdr req1 "X-Loki-pow-nonce")
          (hdr req1 "X-Loki-recipient") req1.body) = false := by
      revert hdup
      cases st0.any (fun it => it.hash ==
        storeHash sha (hdr req1 "X-Loki-timestamp") (hdr req1 "X-Loki-pow-nonce")
          (hdr req1 "X-Loki-recipient") req1.body) <;> simp
    rw [process_store_success sha checkPoW req1 st0 h1 hp1 ht1 hfresh] at hrun
    have hst1 : st1 = st0 ++ [⟨storeHash sha (hdr req1 "X-Loki-timestamp")
        (hdr req1 "X-Loki-pow-nonce") (hdr req1 "X-Loki-recipient") req1.body,
      hdr req1 "X-Loki-recipient", 0, req1.body,
      (stoiModel (hdr req1 "X-Loki-ttl")).getD 0⟩] :=
      (congrArg Prod.snd (Option.some.inj hrun)).symm
    subst hst1
    constructor
    · apply process_store_conflict sha checkPoW req2 _ h2 hp2 ht2
      rw [hsame, List.any_append]
      simp
    · rw [hsame, List.countP_append]
      have hz : st0.countP (fun it => it.hash ==
          storeHash sha (hdr req1 "X-Loki-timestamp") (hdr req1 "X-Loki-pow-nonce")
            (hdr req1 "X-Loki-recipient") req1.body) = 0 := by
        rw [List.countP_eq_zero]
        intro a ha
        intro hcontra
        exact Bool.false_ne_true (hfresh ▸ List.any_eq_true.mpr ⟨a, ha, hcontra⟩)
      simp [hz]

set_option maxRecDepth 4096 in
/-- C5 witness: the theorem instantiated on a concrete request stored
twice from the empty state; the second call returns the conflict
response and leaves the one-message state unchanged. -/
theorem duplicate_store_conflict_witness :
    process_store sha0 powTrue storeReq1 [storedItem1] =
      some (conflictResponse, [storedItem1]) := by
  have h := duplicate_store_conflict sha0 powTrue storeReq1 storeReq1 []
    okStoreResponse [storedItem1] rfl rfl (by decide) rfl rfl (by decide) rfl
    (by decide) rfl
  exact h.1

/-- C6 counterexample: a request whose method is neither GET nor POST
falls into the dispatcher's `default:` branch and gets `bad_request`
(400), not `not_found` (404). -/
theorem unknown_method_not_404_cex :
    process_request sha0 powTrue ⟨Verb.other, "/retrieve", [], []⟩ [] =
      some (⟨HStatus.bad_request, "", ""⟩, []) ∧
    HStatus.bad_request ≠ HStatus.not_found := by
  exact ⟨rfl, by decide⟩

/-- C6 (amended): a GET whose target is not `/retrieve` and a POST whose
target is not `/store` get the `not_found` (404) response; a request with
any other method gets `bad_request` (400).  In both cases the state is
unchanged. -/
theorem dispatch_unknown (sha : List Nat → List Nat)
    (checkPoW : String → String → String → String → List Nat → Bool)
    (req : Request) (st : StorageState) :
    (req.method = Verb.get → req.target ≠ "/retrieve" →
      process_request sha checkPoW req st =
        some (⟨HStatus.not_found, "", ""⟩, st)) ∧
    (req.method = Verb.post → req.target ≠ "/store" →
      process_request sha checkPoW req st =
        some (⟨HStatus.not_found, "", ""⟩, st)) ∧
    (req.method = Verb.other →
      process_request sha checkPoW req st =
        some (⟨HStatus.bad_request, "", ""⟩, st)) := by
  obtain ⟨m, tgt, hs, b⟩ := req
  refine ⟨?_, ?_, ?_⟩ <;> intro hm <;> subst hm
  · intro ht
    simp [process_request, ht]
  · intro ht
    simp [process_request, ht]
  · rfl

/-- C6 witness: the amended statement instantiated at an unknown GET
target, an unknown POST target and a non-GET/POST method. -/
theorem dispatch_unknown_witness :
    process_request sha0 powTrue ⟨Verb.get, "/x", [], []⟩ [] =
      some (⟨HStatus.not_found, "", ""⟩, []) ∧
    process_request sha0 powTrue ⟨Verb.post, "/y", [], []⟩ [] =
      some (⟨HStatus.not_found, "", ""⟩, []) ∧
    process_request sha0 powTrue ⟨Verb.other, "/store", [], []⟩ [] =
      some (⟨HStatus.bad_request, "", ""⟩, []) := by
  refine ⟨?_, ?_, ?_⟩
  · exact (dispatch_unknown sha0 powTrue ⟨Verb.get, "/x", [], []⟩ []).1 rfl
      (by decide)
  · exact (dispatch_unknown sha0 powTrue ⟨Verb.post, "/y", [], []⟩ []).2.1 rfl
      (by decide)
  · exact (dispatch_unknown sha0 powTrue ⟨Verb.other, "/store", [], []⟩ []).2.2 rfl

/-- C7 counterexample: a complete store request with accepted PoW whose
payload is 76801 bytes is accepted and stored — `process_store` has no
payload size check at all. -/
theorem oversize_payload_accepted_cex :
    (process_store sha0 powTrue bigStoreReq []).map (fun r => r.1) =
      some okStoreResponse ∧
    bigStoreReq.body.length = 76801 := by
  constructor
  · rw [process_store_success sha0 powTrue bigStoreReq [] rfl rfl (by decide) rfl]
    rfl
  · show (List.replicate 76801 (0 : Nat)).length = 76801
    rw [List.length_replicate]

/-- C7 (amended): `process_store` imposes no payload-size limit: every
complete store request with accepted PoW, a ttl header accepted by
`stoi` and a fresh hash is accepted and stored, whatever the payload
length (76800 bytes, 76801 bytes, or any other); the new state holds one
more message. -/
theorem store_accepts_any_payload_size (sha : List Nat → List Nat)
    (checkPoW : String → String → String → String → List Nat → Bool)
    (req : Request) (st : StorageState)
    (hh : firstMissing req storeKeys = none)
    (hp : checkPoW (hdr req "X-Loki-pow-nonce") (hdr req "X-Loki-timestamp")
      (hdr req "X-Loki-ttl") (hdr req "X-Loki-recipient") req.body = true)
    (ht : (stoiModel (hdr req "X-Loki-ttl")).isSome = true)
    (hf : st.any (fun it => it.hash == storeHash sha (hdr req "X-Loki-timestamp")
      (hdr req "X-Loki-pow-nonce") (hdr req "X-Loki-recipient") req.body) = false) :
    process_store sha checkPoW req st =
      some (okStoreResponse,
        st ++ [⟨storeHash sha (hdr req "X-Loki-timestamp")
            (hdr req "X-Loki-pow-nonce") (hdr req "X-Loki-recipient") req.body,
          hdr req "X-Loki-recipient", 0, req.body,
          (stoiModel (hdr req "X-Loki-ttl")).getD 0⟩]) ∧
    (st ++ [(⟨storeHash sha (hdr req "X-Loki-timestamp")
        (hdr req "X-Loki-pow-nonce") (hdr req "X-Loki-recipient") req.body,
      hdr req "X-Loki-recipient", 0, req.body,
      (stoiModel (hdr req "X-Loki-ttl")).getD 0⟩ : Item)]).length =
      st.length + 1 := by
  refine ⟨process_store_success sha checkPoW req st hh hp ht hf, ?_⟩
  rw [List.length_append]
  rfl

/-- C7 witness: the amended statement instantiated on a concrete
request. -/
theorem store_accepts_any_payload_size_witness :
    (process_store sha0 powTrue storeReq1 []).map (fun r => r.2.length) =
      some 1 := by
  have h := store_accepts_any_payload_size sha0 powTrue storeReq1 []
    rfl rfl (by decide) rfl
  rw [h.1]
  rfl

set_option maxRecDepth 4096 in
/-- C3 (code defect, evaluated at the failing input): on a GET /retrieve
with the pubkey header present and no stored message matching, the
handler does answer 200 with content type application/json, but
`body.pop_back()` removes the opening bracket of the empty list, so the
body is the malformed text `(brace)"messages": ](brace)` — it contains a
closing bracket but no opening bracket, hence is not the well-formed
JSON object the claim describes. -/
theorem retrieve_empty_malformed :
    process_retrieve retrieveReq [] =
      ⟨HStatus.ok, "application/json", "\x7b\"messages\": ]\x7d"⟩ ∧
    ((retrieveBody ([] : List Item)).data.count '[') = 0 ∧
    ((retrieveBody ([] : List Item)).data.count ']') = 1 := by
  refine ⟨?_, ?_, ?_⟩ <;> decide

/-- C8: `user_pubkey_t::create` succeeds (success set to true and the
wrapped string equal to the input) exactly when the input has the
network's fixed pubkey length — 66 hex characters on mainnet, 64
otherwise — and consists of hex digits only. -/
theorem user_pubkey_create_iff (mn : Bool) (pk : String) :
    ((user_pubkey_t.create mn pk).2 = true ∧
      (user_pubkey_t.create mn pk).1.str = pk) ↔
    (pk.length = (if mn then 66 else 64) ∧ pk.data.all isHexChar = true) := by
  have hsize : get_user_pubkey_size mn = if mn then 66 else 64 := by
    cases mn <;> rfl
  unfold user_pubkey_t.create
  by_cases hc : (pk.length != get_user_pubkey_size mn || !(is_hex pk)) = true
  · rw [if_pos hc]
    simp only [Bool.or_eq_true, bne_iff_ne, Bool.not_eq_true'] at hc
    constructor
    · intro h
      exact absurd h.1 (by simp)
    · rintro ⟨hl, hx⟩
      exfalso
      have hhex : is_hex pk = true := by
        unfold is_hex
        rw [Bool.and_eq_true]
        refine ⟨?_, hx⟩
        rw [hl]
        cases mn <;> rfl
      rcases hc with hne | hfalse
      · exact hne (hl.trans hsize.symm)
      · rw [hhex] at hfalse
        exact absurd hfalse (by decide)
  · rw [if_neg hc]
    simp only [Bool.or_eq_true, bne_iff_ne, Bool.not_eq_true', not_or,
      Decidable.not_not, Bool.not_eq_false] at hc
    constructor
    · intro _
      refine ⟨hc.1.trans hsize, ?_⟩
      have := hc.2
      unfold is_hex at this
      rw [Bool.and_eq_true] at this
      exact this.2
    · intro _
      exact ⟨rfl, rfl⟩

/-- C9: a `MonitorData` registration constructed with the default ttl
`MONITOR_EXPIRY_TIME` has its expiry set to the registration-time steady
clock plus 65 minutes, and `reset_expiry` with the default ttl sets it to
the call-time steady clock plus 65 minutes. -/
theorem monitor_expiry_65min (now now2 : Nat) (ns : List Int) (conn : Nat)
    (data : Bool) (m : MonitorData) :
    (MonitorData.construct now ns conn data MONITOR_EXPIRY_TIME).expiry =
      now + 65 * 60 ∧
    (m.reset_expiry now2 MONITOR_EXPIRY_TIME).expiry = now2 + 65 * 60 :=
  ⟨rfl, rfl⟩

/-- C10: `reset_expiry` changes only the expiry field: the namespaces
list, the push connection handle and the want_data flag of the result are
those of the original record, for every ttl argument. -/
theorem reset_expiry_frame (m : MonitorData) (now ttl : Nat) :
    (m.reset_expiry now ttl).namespaces = m.namespaces ∧
    (m.reset_expiry now ttl).push_conn = m.push_conn ∧
    (m.reset_expiry now ttl).want_data = m.want_data :=
  ⟨rfl, rfl, rfl⟩
